import Mathlib

/-!
Verification development for the quantum-pulse profiling library.

The definitions below are a shallow embedding of the "full" implementation in
`src/collector.rs` and `src/timer.rs` (the enabled profiling mode), together
with the no-op stub implementation from `src/lib.rs` where a claim refers to
it.  Machine integers (`u64`, `usize`) are modelled as `Nat`; all values that
occur stay far below `2^64`, and the one place the source relies on a `u64`
sentinel (`u64::MAX` in `OperationStats::default`) is modelled explicitly as
`2 ^ 64 - 1`.  `std::time::Instant` is modelled by a `Nat` clock (microseconds)
carried in the system state; `Duration` values are `Nat` microseconds.
-/

namespace QuantumPulse

/-- The `u64::MAX` sentinel used by `OperationStats::default` in
`src/collector.rs`. -/
def u64MAX : Nat := 2 ^ 64 - 1

/-- Upper bound of the backing hdrhistogram, from `ThreadSafeHistogram::new`:
`HdrHistogram::new_with_bounds(1, 10_000_000, 3)`. -/
def histHighBound : Nat := 10000000

/-- Model of `ThreadSafeHistogram::record` (src/collector.rs lines 76-80):
the stored value is `value_micros.max(1)` ("Ensure minimum value of 1"), and
the result of `hist.record(..)` is discarded (`let _ = ...`), so a value above
the histogram's upper bound `10_000_000` is silently dropped (the external
hdrhistogram crate rejects out-of-range values when auto-resize is off).
The histogram's stored multiset of values is modelled as a `List Nat`. -/
def histRecord (values : List Nat) (v : Nat) : List Nat :=
  if max v 1 ≤ histHighBound then max v 1 :: values else values

/-- Statistics snapshot for a single operation, from `OperationStats` in
src/collector.rs.  `mean_time_micros` is an `f64` in the source; it is
modelled as an exact rational.  `std_dev_micros` (an `f64` computed by the
external hdrhistogram crate) is omitted: no claim concerns it and it has no
exact integer meaning. -/
structure OperationStats where
  count : Nat
  total_time_micros : Nat
  min_time_micros : Nat
  max_time_micros : Nat
  mean_time_micros : ℚ
  p50_micros : Nat
  p95_micros : Nat
  p99_micros : Nat
  p999_micros : Nat
deriving Repr, DecidableEq

/-- `impl Default for OperationStats` (src/collector.rs lines 41-56): note the
`min_time_micros: u64::MAX` sentinel. -/
def OperationStats.default : OperationStats :=
  { count := 0
    total_time_micros := 0
    min_time_micros := u64MAX
    max_time_micros := 0
    mean_time_micros := 0
    p50_micros := 0
    p95_micros := 0
    p99_micros := 0
    p999_micros := 0 }

/-- Model of the external hdrhistogram `value_at_quantile`: the smallest
recorded value whose cumulative count reaches the requested quantile
(defaulting to the maximum).  The 3-significant-figure quantisation of the
external crate is not modelled; no claim depends on percentile values beyond
their being defined (and zero on an empty histogram, which `getStats` handles
before calling this). -/
def valueAtQuantile (values : List Nat) (q : ℚ) : Nat :=
  (values.filter
    (fun v => decide (q * (values.length : ℚ) ≤ (values.countP (fun w => decide (w ≤ v)) : ℚ)))).foldr
    min (values.foldr max 0)

/-- Model of `ThreadSafeHistogram::get_stats` (src/collector.rs lines 82-103):
an empty histogram yields `OperationStats::default()`; otherwise count, min,
max, mean and percentiles are read off the histogram.  `total_time_micros` is
computed in the source as `(hist.mean() * hist.len() as f64) as u64`, which in
exact arithmetic is the sum of the stored values; the model computes that sum
directly.  Min/max/mean/percentiles delegate in the source to the external
hdrhistogram; they are modelled exactly on the stored multiset (the external
crate is exact for values below 2048 and quantises to 3 significant figures
above). -/
def getStats (values : List Nat) : OperationStats :=
  if values.isEmpty then OperationStats.default
  else
    { count := values.length
      total_time_micros := values.sum
      min_time_micros := values.foldr min u64MAX
      max_time_micros := values.foldr max 0
      mean_time_micros := (values.sum : ℚ) / (values.length : ℚ)
      p50_micros := valueAtQuantile values (1 / 2)
      p95_micros := valueAtQuantile values (95 / 100)
      p99_micros := valueAtQuantile values (99 / 100)
      p999_micros := valueAtQuantile values (999 / 1000) }

/-- Association-list lookup, modelling `HashMap::get`. -/
def alookup {α : Type} : List (String × α) → String → Option α
  | [], _ => none
  | (k, v) :: rest, key => if k = key then some v else alookup rest key

/-- Association-list in-place update of an existing key (no-op when the key is
absent), modelling mutation through `HashMap::get` / `entry`. -/
def aupdate {α : Type} (key : String) (f : α → α) : List (String × α) → List (String × α)
  | [] => []
  | (k, v) :: rest => if k = key then (k, f v) :: rest else (k, v) :: aupdate key f rest

/-- Model of `OperationMetadata` (src/collector.rs lines 136-140): the stored
`TypeId` of the category's Rust type is modelled as a `String` tag, and the
type-erased category value (`Arc<dyn Any>`) as the `String` name of the
category value it holds. -/
structure CatMeta where
  tyId : String
  value : String
deriving Repr, DecidableEq

/-- The two global registries of `ProfileCollector` (src/collector.rs):
`HISTOGRAMS : HashMap<String, ThreadSafeHistogram>` and
`METADATA : HashMap<String, OperationMetadata>`, modelled as association
lists. -/
structure Collector where
  histograms : List (String × List Nat)
  metadata : List (String × CatMeta)
deriving Repr, DecidableEq

/-- The empty collector state (both registries start empty). -/
def Collector.empty : Collector := ⟨[], []⟩

/-- Model of `ProfileCollector::record_with_category` (src/collector.rs lines
160-199), sequentialised: if the key already has a histogram, record into it
and RETURN EARLY (the metadata table is not touched); otherwise create the
histogram, record into it, and insert the category metadata only if the key
has no metadata yet (`entry(..).or_insert_with(..)`, first writer wins). -/
def Collector.record_with_category (key : String) (cat : CatMeta) (d : Nat)
    (c : Collector) : Collector :=
  match alookup c.histograms key with
  | some _ => { c with histograms := aupdate key (fun vs => histRecord vs d) c.histograms }
  | none =>
    let c1 : Collector := { c with histograms := (key, histRecord [] d) :: c.histograms }
    match alookup c1.metadata key with
    | some _ => c1
    | none => { c1 with metadata := (key, ⟨cat.tyId, cat.value⟩) :: c1.metadata }

/-- Model of `ProfileCollector::record` (src/collector.rs lines 155-157):
delegates to `record_with_category` with `DefaultCategory::Other`. -/
def Collector.record (key : String) (d : Nat) (c : Collector) : Collector :=
  Collector.record_with_category key ⟨"DefaultCategory", "Other"⟩ d c

/-- Model of `ProfileCollector::get_stats` (src/collector.rs lines 202-209). -/
def Collector.get_stats (key : String) (c : Collector) : Option OperationStats :=
  (alookup c.histograms key).map getStats

/-- Model of `ProfileCollector::get_category` (src/collector.rs lines
250-267): returns the stored category value when the requested category type
matches the stored `TypeId`, `None` otherwise. -/
def Collector.get_category (tyId : String) (key : String) (c : Collector) : Option String :=
  (alookup c.metadata key).bind (fun m => if m.tyId = tyId then some m.value else none)

/-- Model of `ProfileCollector::reset_operation` (src/collector.rs lines
301-308): if the key has a histogram, reset it IN PLACE (`histogram.reset()`
empties the histogram; the map entry itself is not removed). -/
def Collector.reset_operation (key : String) (c : Collector) : Collector :=
  match alookup c.histograms key with
  | some _ => { c with histograms := aupdate key (fun _ => []) c.histograms }
  | none => c

/-- Model of `ProfileCollector::reset_all` (src/collector.rs lines 311-317):
resets every histogram in place; no entry is removed and the metadata table is
untouched. -/
def Collector.reset_all (c : Collector) : Collector :=
  { c with histograms := c.histograms.map (fun e => (e.1, [])) }

/-- Model of `ProfileCollector::clear_all` (src/collector.rs lines 320-327):
drops every histogram and every metadata entry. -/
def Collector.clear_all (_c : Collector) : Collector := Collector.empty

/-- Fold a sequence of `record` calls for one key, left to right. -/
def Collector.recordSeq (key : String) (ds : List Nat) (c : Collector) : Collector :=
  ds.foldl (fun acc d => Collector.record key d acc) c

end QuantumPulse

namespace QuantumPulseStub

/-- Model of the stub `ProfileCollector::pause` (src/lib.rs line 175): an
empty body, mutating nothing — there is no pause flag anywhere in the stub
module, and the full-mode `ProfileCollector` in src/collector.rs has no
`pause`/`unpause`/`is_paused` at all. -/
def pause : Unit := ()

/-- Model of the stub `ProfileCollector::unpause` (src/lib.rs line 177). -/
def unpause : Unit := ()

/-- Model of the stub `ProfileCollector::is_paused` (src/lib.rs lines
179-181): unconditionally returns `false`. -/
def is_paused : Bool := false

/-- Model of the stub `ProfileCollector::get_stats` (src/lib.rs lines
155-157): unconditionally `None`. -/
def get_stats (_key : String) : Option QuantumPulse.OperationStats := none

end QuantumPulseStub

namespace QuantumPulse

/-- An operation identity as the timers consume it: `ProfileTimer::record`
(src/timer.rs lines 148-161) only ever asks the operation for its category's
name (`operation.get_category().get_name()`) and its string form
(`operation.to_str()`), so an operation is modelled by those two strings. -/
structure Operation where
  categoryName : String
  name : String
deriving Repr, DecidableEq

/-- The operation key `format!("{}::{}", category_name, operation.to_str())`
built by `ProfileTimer::record` / `PausableTimer::record` /
`ProfileTimerAsync::run`. -/
def operationKey (op : Operation) : String :=
  op.categoryName ++ "::" ++ op.name

/-- The mutable context a timer runs in: the global collector registries, the
thread-local `TIMER_STACK` and `PAUSED_TIMERS` (src/timer.rs lines 12-18), the
global `TIMER_ID_COUNTER` (line 21), and a wall clock in microseconds standing
in for `Instant::now()`. -/
structure TimerSys where
  collector : Collector
  timerStack : List Nat
  pausedTimers : List Nat
  counter : Nat
  now : Nat
deriving Repr, DecidableEq

/-- The process-start state: empty registries, empty thread-locals, id counter
at zero. -/
def TimerSys.init : TimerSys := ⟨Collector.empty, [], [], 0, 0⟩

/-- Wall-clock time advancing by `d` microseconds while the program works or
sleeps. -/
def TimerSys.sleep (s : TimerSys) (d : Nat) : TimerSys := { s with now := s.now + d }

/-- Insertion into the thread-local `PAUSED_TIMERS` `HashSet` (only membership
is ever observed, so the set is a duplicate-free-by-construction list). -/
def setInsert (l : List Nat) (x : Nat) : List Nat := if x ∈ l then l else x :: l

/-- Model of `pause_stack` (src/timer.rs lines 28-40): insert every id
currently on the thread's timer stack into the paused set. -/
def TimerSys.pause_stack (s : TimerSys) : TimerSys :=
  { s with pausedTimers := s.timerStack.foldl setInsert s.pausedTimers }

/-- Model of `unpause_stack` (src/timer.rs lines 46-58): remove every id
currently on the timer stack from the paused set — i.e. keep exactly the
paused ids that are not on the stack. -/
def TimerSys.unpause_stack (s : TimerSys) : TimerSys :=
  { s with pausedTimers := s.pausedTimers.filter (fun i => decide (i ∉ s.timerStack)) }

/-- Model of `is_timer_paused` (src/timer.rs lines 61-63). -/
def TimerSys.is_timer_paused (id : Nat) (s : TimerSys) : Bool :=
  decide (id ∈ s.pausedTimers)

/-- Model of `ProfileTimer` (src/timer.rs lines 95-103): operation reference,
start instant, `recorded` flag, unique id, individual-pause flag. -/
structure ProfileTimer where
  operation : Operation
  start_time : Nat
  recorded : Bool
  id : Nat
  individually_paused : Bool
deriving Repr, DecidableEq

/-- Model of `ProfileTimer::new` (src/timer.rs lines 110-125): take a fresh id
from the global counter (`fetch_add`), push it onto the thread's timer stack,
capture `Instant::now()`. -/
def ProfileTimer.new (op : Operation) (s : TimerSys) : ProfileTimer × TimerSys :=
  (⟨op, s.now, false, s.counter, false⟩,
   { s with counter := s.counter + 1, timerStack := s.timerStack ++ [s.counter] })

/-- Model of `ProfileTimer::elapsed` in microseconds (src/timer.rs lines
133-140). -/
def ProfileTimer.elapsed (t : ProfileTimer) (s : TimerSys) : Nat := s.now - t.start_time

/-- Model of `ProfileTimer::record` (src/timer.rs lines 148-161): if not yet
recorded and not suppressed (individually paused or id in the paused set),
build the key and call `ProfileCollector::record` with the elapsed
microseconds, then set `recorded`; if suppressed, just set `recorded` so a
later call does not retry. -/
def ProfileTimer.record (t : ProfileTimer) (s : TimerSys) : ProfileTimer × TimerSys :=
  let is_paused := t.individually_paused || TimerSys.is_timer_paused t.id s
  if !t.recorded && !is_paused then
    ({ t with recorded := true },
     { s with collector :=
        Collector.record (operationKey t.operation) (ProfileTimer.elapsed t s) s.collector })
  else if is_paused then ({ t with recorded := true }, s)
  else (t, s)

/-- Model of `impl Drop for ProfileTimer` (src/timer.rs lines 200-217): remove
this id from the timer stack (`retain`), call `record()` if not already
recorded, then remove this id from the paused set. -/
def ProfileTimer.drop (t : ProfileTimer) (s : TimerSys) : TimerSys :=
  let s1 : TimerSys := { s with timerStack := s.timerStack.filter (fun i => i != t.id) }
  let s2 : TimerSys := if t.recorded then s1 else (ProfileTimer.record t s1).2
  { s2 with pausedTimers := s2.pausedTimers.filter (fun i => i != t.id) }

/-- Model of `ProfileTimer::stop` (src/timer.rs lines 186-190): compute the
elapsed duration, set `recorded = true` to suppress the auto-record, and —
because `stop` consumes `self` — run the destructor, which then only performs
the stack and paused-set cleanup. -/
def ProfileTimer.stop (t : ProfileTimer) (s : TimerSys) : Nat × TimerSys :=
  (ProfileTimer.elapsed t s, ProfileTimer.drop { t with recorded := true } s)

/-- Model of `ProfileTimerAsync` (src/timer.rs lines 252-255): only an
operation reference and a start instant — no id, no stack registration, and
crucially NO `Drop` implementation. -/
structure ProfileTimerAsync where
  operation : Operation
  start_time : Nat
deriving Repr, DecidableEq

/-- Model of `ProfileTimerAsync::new` (src/timer.rs lines 259-264). -/
def ProfileTimerAsync.new (op : Operation) (s : TimerSys) : ProfileTimerAsync × TimerSys :=
  (⟨op, s.now⟩, s)

/-- Model of the future returned by `ProfileTimerAsync::run` (src/timer.rs
lines 267-284) being driven to completion: after the wrapped future finishes,
the elapsed time is recorded. -/
def ProfileTimerAsync.runCompleted (t : ProfileTimerAsync) (s : TimerSys) : TimerSys :=
  { s with collector :=
      Collector.record (operationKey t.operation) (s.now - t.start_time) s.collector }

/-- Model of the future returned by `ProfileTimerAsync::run` being DROPPED
before completion: the code after the inner `fut.await` never runs, and
neither `ProfileTimerAsync` nor the returned future has a `Drop`
implementation (its fields are a shared reference and an `Instant`, whose
drops are trivial), so nothing is recorded and no state changes. -/
def ProfileTimerAsync.futureDrop (_t : ProfileTimerAsync) (s : TimerSys) : TimerSys := s

/-- A representative payload-carrying operation enum, as in the
`test_enum_variants_with_data` test of src/tests/macro_test.rs:
`enum TestOp { #[category(name = "Database")] Query(String), ... }` with
`#[derive(Debug, ProfileOp)]`. -/
inductive DbOp where
  | Query (sql : String)
  | Connect
deriving Repr, DecidableEq

/-- The `#[derive(Debug)]` formatting of `DbOp`: a tuple variant prints its
payload, with `String` fields quoted (`Query("SELECT 1")`).  Escape sequences
inside the payload are not modelled; every payload used below is
escape-free. -/
def DbOp.debugFmt : DbOp → String
  | .Query sql => "Query(" ++ "\"" ++ sql ++ "\"" ++ ")"
  | .Connect => "Connect"

/-- The `Operation::to_str` that `DbOp` actually gets: the derive macro in
src/quantum-pulse-macros/src/lib.rs (lines 210-237) generates ONLY
`get_category`, so `to_str` falls back to the trait default
`format!("{:?}", self)` (src/operation.rs lines 55-57), which includes the
payload. -/
def DbOp.to_str (op : DbOp) : String := op.debugFmt

/-- The category name the derive macro assigns to each `DbOp` variant
(`#[category(name = "Database")]` on `Query`; an unannotated variant uses its
own name). -/
def DbOp.categoryName : DbOp → String
  | .Query _ => "Database"
  | .Connect => "Connect"

/-- The operation key `ProfileTimer::record` computes for a `DbOp`:
`format!("{}::{}", category_name, to_str)`. -/
def DbOp.timerKey (op : DbOp) : String :=
  op.categoryName ++ "::" ++ op.to_str

end QuantumPulse

namespace QuantumPulse

/-- Updating an association list at a key it contains applies the function at
that key. -/
theorem alookup_aupdate_self {α : Type} (l : List (String × α)) (key : String)
    (f : α → α) (v : α) (h : alookup l key = some v) :
    alookup (aupdate key f l) key = some (f v) := by
  induction l with
  | nil => simp [alookup] at h
  | cons e rest ih =>
    obtain ⟨k, w⟩ := e
    by_cases hk : k = key
    · subst hk
      simp [alookup] at h
      simp [aupdate, alookup, h]
    · simp [alookup, hk] at h
      simp [aupdate, alookup, hk, ih h]

/-- Updating an association list at one key leaves lookups at other keys
unchanged. -/
theorem alookup_aupdate_ne {α : Type} (l : List (String × α)) (key k2 : String)
    (f : α → α) (h : k2 ≠ key) :
    alookup (aupdate key f l) k2 = alookup l k2 := by
  induction l with
  | nil => simp [aupdate]
  | cons e rest ih =>
    obtain ⟨k, w⟩ := e
    by_cases hk : k = key
    · have hne : ¬ key = k2 := fun hkk => h hkk.symm
      simp [aupdate, alookup, hk, hne]
    · simp [aupdate, alookup, hk, ih]

/-- Looking up the map produced by `List.map` that empties every value. -/
theorem alookup_map_empty (l : List (String × List Nat)) (key : String) :
    alookup (l.map (fun e => (e.1, ([] : List Nat)))) key
      = (alookup l key).map (fun _ => ([] : List Nat)) := by
  induction l with
  | nil => simp [alookup]
  | cons e rest ih =>
    obtain ⟨k, w⟩ := e
    by_cases hk : k = key
    · simp [alookup, hk]
    · simp [alookup, hk, ih]

/-- After `record_with_category`, the key's histogram holds the clamped value
on top of whatever was there before (nothing, for a fresh key). -/
theorem record_with_category_lookup_self (key : String) (cat : CatMeta) (d : Nat)
    (c : Collector) :
    alookup (Collector.record_with_category key cat d c).histograms key
      = some (histRecord ((alookup c.histograms key).getD []) d) := by
  cases h : alookup c.histograms key with
  | none =>
    cases hm : alookup c.metadata key with
    | none => simp [Collector.record_with_category, h, hm, alookup]
    | some m => simp [Collector.record_with_category, h, hm, alookup]
  | some vs =>
    simp [Collector.record_with_category, h, alookup_aupdate_self c.histograms key _ vs h]

/-- `record_with_category` at one key does not change another key's
histogram. -/
theorem record_with_category_lookup_ne (key k2 : String) (cat : CatMeta) (d : Nat)
    (c : Collector) (h : k2 ≠ key) :
    alookup (Collector.record_with_category key cat d c).histograms k2
      = alookup c.histograms k2 := by
  cases hl : alookup c.histograms key with
  | none =>
    have hne : ¬ key = k2 := fun hkk => h hkk.symm
    cases hm : alookup c.metadata key with
    | none => simp [Collector.record_with_category, hl, hm, alookup, hne]
    | some m => simp [Collector.record_with_category, hl, hm, alookup, hne]
  | some vs =>
    simp [Collector.record_with_category, hl, alookup_aupdate_ne c.histograms key k2 _ h]

/-- When the key already has a histogram, `record_with_category` returns
early: the metadata table is untouched (this is what makes category
registration first-writer-wins). -/
theorem record_with_category_metadata_present (key : String) (cat : CatMeta) (d : Nat)
    (c : Collector) (vs : List Nat) (h : alookup c.histograms key = some vs) :
    (Collector.record_with_category key cat d c).metadata = c.metadata := by
  simp [Collector.record_with_category, h]

/-- For a brand-new key (no histogram, no metadata), `record_with_category`
registers the supplied category. -/
theorem record_with_category_metadata_absent (key : String) (cat : CatMeta) (d : Nat)
    (c : Collector) (h1 : alookup c.histograms key = none)
    (h2 : alookup c.metadata key = none) :
    (Collector.record_with_category key cat d c).metadata
      = (key, ⟨cat.tyId, cat.value⟩) :: c.metadata := by
  simp [Collector.record_with_category, h1, h2]

end QuantumPulse

namespace QuantumPulse

/-- Folding `min` starting from `min x a` pulls `x` out of the fold. -/
theorem foldr_min_pull (l : List Nat) (x a : Nat) :
    l.foldr min (min x a) = min x (l.foldr min a) := by
  induction l with
  | nil => rfl
  | cons y l ih => simp [List.foldr, ih, min_left_comm]

/-- Folding `max` starting from `max x a` pulls `x` out of the fold. -/
theorem foldr_max_pull (l : List Nat) (x a : Nat) :
    l.foldr max (max x a) = max x (l.foldr max a) := by
  induction l with
  | nil => rfl
  | cons y l ih => simp [List.foldr, ih, max_left_comm]

/-- A `min`-fold is insensitive to reversing the list. -/
theorem foldr_min_reverse (l : List Nat) (a : Nat) :
    l.reverse.foldr min a = l.foldr min a := by
  induction l generalizing a with
  | nil => rfl
  | cons x l ih =>
    rw [List.reverse_cons, List.foldr_append]
    simp [List.foldr, ih, foldr_min_pull]

/-- A `max`-fold is insensitive to reversing the list. -/
theorem foldr_max_reverse (l : List Nat) (a : Nat) :
    l.reverse.foldr max a = l.foldr max a := by
  induction l generalizing a with
  | nil => rfl
  | cons x l ih =>
    rw [List.reverse_cons, List.foldr_append]
    simp [List.foldr, ih, foldr_max_pull]

/-- The `min`-fold is a lower bound for every member of the list. -/
theorem foldr_min_le_mem {l : List Nat} {x : Nat} (h : x ∈ l) (a : Nat) :
    l.foldr min a ≤ x := by
  induction l with
  | nil => cases h
  | cons y l ih =>
    rcases List.mem_cons.mp h with hx | hx
    · subst hx
      exact min_le_left _ _
    · exact le_trans (min_le_right _ _) (ih hx)

/-- The `max`-fold is an upper bound for every member of the list. -/
theorem le_foldr_max_mem {l : List Nat} {x : Nat} (h : x ∈ l) (a : Nat) :
    x ≤ l.foldr max a := by
  induction l with
  | nil => cases h
  | cons y l ih =>
    rcases List.mem_cons.mp h with hx | hx
    · subst hx
      exact le_max_left _ _
    · exact le_trans (ih hx) (le_max_right _ _)

/-- The sum of a list dominates its length times its `min`-fold. -/
theorem length_mul_foldr_min_le_sum (l : List Nat) (a : Nat) :
    l.length * l.foldr min a ≤ l.sum := by
  induction l with
  | nil => simp
  | cons x l ih =>
    have hm : min x (l.foldr min a) ≤ x := min_le_left _ _
    have hm2 : min x (l.foldr min a) ≤ l.foldr min a := min_le_right _ _
    calc (x :: l).length * (x :: l).foldr min a
        = min x (l.foldr min a) + l.length * min x (l.foldr min a) := by
          simp [List.length_cons, List.foldr, Nat.succ_mul, Nat.add_comm]
      _ ≤ x + l.length * l.foldr min a := by
          exact Nat.add_le_add hm (Nat.mul_le_mul_left _ hm2)
      _ ≤ x + l.sum := Nat.add_le_add_left ih _
      _ = (x :: l).sum := by simp

/-- The sum of a list is dominated by its length times its `max`-fold. -/
theorem sum_le_length_mul_foldr_max (l : List Nat) (a : Nat) :
    l.sum ≤ l.length * l.foldr max a := by
  induction l with
  | nil => simp
  | cons x l ih =>
    have hm : x ≤ max x (l.foldr max a) := le_max_left _ _
    have hm2 : l.foldr max a ≤ max x (l.foldr max a) := le_max_right _ _
    calc (x :: l).sum = x + l.sum := by simp
      _ ≤ max x (l.foldr max a) + l.length * l.foldr max a := Nat.add_le_add hm ih
      _ ≤ max x (l.foldr max a) + l.length * max x (l.foldr max a) :=
          Nat.add_le_add_left (Nat.mul_le_mul_left _ hm2) _
      _ = (x :: l).length * (x :: l).foldr max a := by
          simp [List.length_cons, List.foldr, Nat.succ_mul, Nat.add_comm]

/-- Membership in `setInsert`. -/
theorem mem_setInsert (l : List Nat) (x y : Nat) :
    y ∈ setInsert l x ↔ y ∈ l ∨ y = x := by
  by_cases hx : x ∈ l
  · constructor
    · intro h
      exact Or.inl (by simpa [setInsert, hx] using h)
    · intro h
      rcases h with h | h
      · simpa [setInsert, hx]
      · subst h
        simp [setInsert, hx]
  · simp [setInsert, hx]
    constructor
    · intro h
      rcases h with h | h
      · exact Or.inr h
      · exact Or.inl h
    · intro h
      rcases h with h | h
      · exact Or.inr h
      · exact Or.inl h

/-- Membership in the paused set produced by folding `setInsert` over a list of
stack ids: exactly the old members plus the stack ids. -/
theorem mem_foldl_setInsert (l init : List Nat) (x : Nat) :
    x ∈ l.foldl setInsert init ↔ x ∈ init ∨ x ∈ l := by
  induction l generalizing init with
  | nil => simp
  | cons y l ih =>
    rw [List.foldl_cons, ih, mem_setInsert]
    constructor
    · rintro (⟨h | h⟩ | h)
      · exact Or.inl h
      · exact Or.inr (by simp [h])
      · exact Or.inr (by simp [h])
    · rintro (h | h)
      · exact Or.inl (Or.inl h)
      · rcases List.mem_cons.mp h with h | h
        · exact Or.inl (Or.inr h)
        · exact Or.inr h

/-- Recording a sequence of in-range durations onto a key whose histogram
holds `vs` leaves the histogram holding the reversed sequence on top of
`vs`. -/
theorem recordSeq_lookup (key : String) (ds : List Nat) (c : Collector) (vs : List Nat)
    (h : alookup c.histograms key = some vs)
    (hr : ∀ d ∈ ds, 1 ≤ d ∧ d ≤ histHighBound) :
    alookup (Collector.recordSeq key ds c).histograms key = some (ds.reverse ++ vs) := by
  induction ds generalizing c vs with
  | nil => simpa [Collector.recordSeq] using h
  | cons d ds ih =>
    have hd := hr d (by simp)
    have hstep : alookup (Collector.record key d c).histograms key = some (d :: vs) := by
      rw [Collector.record, record_with_category_lookup_self, h]
      have hmax : max d 1 = d := max_eq_left hd.1
      simp [histRecord, hmax, hd.2]
    have := ih (Collector.record key d c) (d :: vs) hstep
      (fun x hx => hr x (by simp [hx]))
    simpa [Collector.recordSeq, List.foldl_cons] using this

end QuantumPulse

namespace QuantumPulse

/-- Dropping a not-yet-recorded timer whose id is not in the paused set (and
which is not individually paused) records its elapsed time and cleans up the
thread-local stack and paused set. -/
theorem drop_of_unpaused (t : ProfileTimer) (s : TimerSys)
    (hrec : t.recorded = false) (hip : t.individually_paused = false)
    (hnp : t.id ∉ s.pausedTimers) :
    ProfileTimer.drop t s =
      { collector := Collector.record (operationKey t.operation) (s.now - t.start_time) s.collector
        timerStack := s.timerStack.filter (fun i => i != t.id)
        pausedTimers := s.pausedTimers.filter (fun i => i != t.id)
        counter := s.counter
        now := s.now } := by
  simp [ProfileTimer.drop, ProfileTimer.record, TimerSys.is_timer_paused, hrec, hip, hnp,
    ProfileTimer.elapsed]

/-- Dropping a not-yet-recorded timer whose id IS in the paused set performs
only the thread-local cleanup: the collector is untouched. -/
theorem drop_of_paused (t : ProfileTimer) (s : TimerSys)
    (hrec : t.recorded = false) (hp : t.id ∈ s.pausedTimers) :
    ProfileTimer.drop t s =
      { collector := s.collector
        timerStack := s.timerStack.filter (fun i => i != t.id)
        pausedTimers := s.pausedTimers.filter (fun i => i != t.id)
        counter := s.counter
        now := s.now } := by
  simp [ProfileTimer.drop, ProfileTimer.record, TimerSys.is_timer_paused, hrec, hp]

/-- Dropping an already-recorded timer performs only the thread-local
cleanup. -/
theorem drop_of_recorded (t : ProfileTimer) (s : TimerSys) (hrec : t.recorded = true) :
    ProfileTimer.drop t s =
      { collector := s.collector
        timerStack := s.timerStack.filter (fun i => i != t.id)
        pausedTimers := s.pausedTimers.filter (fun i => i != t.id)
        counter := s.counter
        now := s.now } := by
  simp [ProfileTimer.drop, hrec]

end QuantumPulse

namespace QuantumPulse

/-- C1: the claim says `pause()` / `unpause()` / `is_paused()` toggle and
report a single global suppression flag on the Collector and that `record*`
calls are dropped while paused.  The code has no such flag anywhere: the
full-mode `ProfileCollector` (src/collector.rs) does not define `pause`,
`unpause` or `is_paused` at all and `record_with_category` never consults any
pause state (two records always accumulate count 2), while the stub
`ProfileCollector` (src/lib.rs lines 175-183) has empty `pause`/`unpause`
bodies, an `is_paused` that is constantly `false`, and a `get_stats` that is
constantly `None` — contradicting the library's own tests
(`test_pause_unpause_basic` in src/tests/pause_unpause_integration.rs asserts
`is_paused()` is `true` right after `pause!()` and that a paused `record` does
not change the count).  This theorem evaluates the code at that failing
input. -/
theorem C1_no_global_pause_flag :
    QuantumPulseStub.is_paused = false
    ∧ QuantumPulseStub.get_stats "Core1::CriticalWork" = none
    ∧ (Collector.get_stats "Core1::CriticalWork"
        (Collector.record "Core1::CriticalWork" 5
          (Collector.record "Core1::CriticalWork" 5 Collector.empty))).map
        OperationStats.count = some 2 := by
  refine ⟨rfl, rfl, ?_⟩
  decide

/-- C3 counterexample: the claim demands `total == d1` and `min == min(d1)`
for every duration including zero, so recording the single duration 0 should
give `total == 0` and `min == 0`; the code clamps every recorded value to at
least 1 (`value_micros.max(1)` in `ThreadSafeHistogram::record`), so both
come back as 1. -/
theorem C3_counterexample :
    (Collector.get_stats "op3" (Collector.record "op3" 0 Collector.empty)).map
      OperationStats.min_time_micros = some 1
    ∧ (Collector.get_stats "op3" (Collector.record "op3" 0 Collector.empty)).map
      OperationStats.total_time_micros = some 1
    ∧ (1 : Nat) ≠ 0 := by
  refine ⟨by decide, by decide, by decide⟩

/-- C6 counterexample: the claim says that on an empty accumulator `min` is
zero/empty "rather than an arbitrary sentinel"; the code's
`OperationStats::default()` — returned by `get_stats` whenever the histogram
is empty, e.g. right after `reset_operation` — sets
`min_time_micros: u64::MAX`. -/
theorem C6_counterexample :
    Collector.get_stats "op6" (Collector.reset_operation "op6"
      (Collector.record "op6" 5 Collector.empty)) = some OperationStats.default
    ∧ OperationStats.default.min_time_micros = 2 ^ 64 - 1
    ∧ (2 ^ 64 - 1 : Nat) ≠ 0 := by
  refine ⟨by decide, rfl, by decide⟩

/-- C9 counterexample: the claim says that after `reset_operation(k)` the key
`k`'s entry is gone (`get_stats(k)` would be `None`); the code only calls
`histogram.reset()` on the existing entry, so the entry survives and
`get_stats` returns `Some` zeroed statistics. -/
theorem C9_counterexample :
    Collector.get_stats "op9" (Collector.reset_operation "op9"
      (Collector.record "op9" 7 Collector.empty)) ≠ none := by
  decide

end QuantumPulse

namespace QuantumPulse

/-- A single record of an in-range duration onto a fresh key yields count 1
and total equal to that duration. -/
theorem get_stats_single (c0 : Collector) (key : String) (d : Nat)
    (hkey : alookup c0.histograms key = none)
    (h1 : 1 ≤ d) (h2 : d ≤ histHighBound) :
    (Collector.get_stats key (Collector.record key d c0)).map OperationStats.count = some 1
    ∧ (Collector.get_stats key (Collector.record key d c0)).map
        OperationStats.total_time_micros = some d := by
  have hl : alookup (Collector.record key d c0).histograms key = some [d] := by
    rw [Collector.record, record_with_category_lookup_self, hkey]
    have hmax : max d 1 = d := max_eq_left h1
    simp [histRecord, hmax, h2]
  constructor
  · simp [Collector.get_stats, hl, getStats]
  · simp [Collector.get_stats, hl, getStats]

/-- C2: stack-pause semantics of `pause_stack` / `unpause_stack` /
`ProfileTimer` (src/timer.rs).  Scenario 1: a timer alive when `pause_stack`
runs and dropped without an intervening `unpause_stack` records nothing
(`get_stats` for its key stays `None` when it was the key's only user).
Scenario 2: if `unpause_stack` runs while the timer is still alive and the
timer is then dropped, exactly one measurement is recorded, whose duration is
the full wall-clock elapsed time from creation to drop — `a + b + c`
microseconds, including the interval `b` spent between `pause_stack` and
`unpause_stack` (assumed within the histogram's accepted range).  Scenario 3:
a timer created after `pause_stack` (and never itself paused) records
normally.  The hypotheses about `ctr` say that every id on the thread-local
stack or paused set was minted by the global counter — true of every reachable
state. -/
theorem C2_stack_pause_semantics
    (c0 : Collector) (stk psd : List Nat) (ctr n0 : Nat) (op : Operation)
    (a b cdur : Nat)
    (hpl : ∀ i ∈ psd, i < ctr)
    (hsl : ∀ i ∈ stk, i < ctr)
    (hkey : alookup c0.histograms (operationKey op) = none)
    (hd1 : 1 ≤ a + b + cdur) (hd2 : a + b + cdur ≤ histHighBound)
    (ha1 : 1 ≤ a) (ha2 : a ≤ histHighBound) :
    (Collector.get_stats (operationKey op)
      (ProfileTimer.drop (ProfileTimer.new op ⟨c0, stk, psd, ctr, n0⟩).1
        (TimerSys.sleep
          (TimerSys.pause_stack
            (TimerSys.sleep (ProfileTimer.new op ⟨c0, stk, psd, ctr, n0⟩).2 a)) b)).collector
      = none)
    ∧
    ((Collector.get_stats (operationKey op)
      (ProfileTimer.drop (ProfileTimer.new op ⟨c0, stk, psd, ctr, n0⟩).1
        (TimerSys.sleep
          (TimerSys.unpause_stack
            (TimerSys.sleep
              (TimerSys.pause_stack
                (TimerSys.sleep (ProfileTimer.new op ⟨c0, stk, psd, ctr, n0⟩).2 a)) b))
          cdur)).collector).map OperationStats.count = some 1
     ∧ (Collector.get_stats (operationKey op)
      (ProfileTimer.drop (ProfileTimer.new op ⟨c0, stk, psd, ctr, n0⟩).1
        (TimerSys.sleep
          (TimerSys.unpause_stack
            (TimerSys.sleep
              (TimerSys.pause_stack
                (TimerSys.sleep (ProfileTimer.new op ⟨c0, stk, psd, ctr, n0⟩).2 a)) b))
          cdur)).collector).map OperationStats.total_time_micros = some (a + b + cdur))
    ∧
    ((Collector.get_stats (operationKey op)
      (ProfileTimer.drop
        (ProfileTimer.new op (TimerSys.pause_stack ⟨c0, stk, psd, ctr, n0⟩)).1
        (TimerSys.sleep
          (ProfileTimer.new op (TimerSys.pause_stack ⟨c0, stk, psd, ctr, n0⟩)).2 a)).collector).map
      OperationStats.count = some 1) := by
  refine ⟨?_, ?_, ?_⟩
  · -- scenario 1: the timer's id is in the paused set at drop time
    have hmem : ctr ∈ ((stk ++ [ctr]).foldl setInsert psd) := by
      rw [mem_foldl_setInsert]
      exact Or.inr (by simp)
    rw [show (ProfileTimer.new op ⟨c0, stk, psd, ctr, n0⟩).1
        = ⟨op, n0, false, ctr, false⟩ from rfl]
    rw [show TimerSys.sleep (TimerSys.pause_stack
          (TimerSys.sleep (ProfileTimer.new op ⟨c0, stk, psd, ctr, n0⟩).2 a)) b
        = ⟨c0, stk ++ [ctr], (stk ++ [ctr]).foldl setInsert psd, ctr + 1, n0 + a + b⟩ from by
      simp [ProfileTimer.new, TimerSys.sleep, TimerSys.pause_stack]]
    rw [drop_of_paused _ _ rfl hmem]
    simp [Collector.get_stats, hkey]
  · -- scenario 2: unpause_stack removed the id, the drop records a + b + cdur
    have hnp : ctr ∉ (((stk ++ [ctr]).foldl setInsert psd).filter
        (fun i => decide (i ∉ stk ++ [ctr]))) := by
      intro hmem
      have := List.mem_filter.mp hmem
      have h2 := this.2
      simp at h2
    have hpre : TimerSys.sleep
          (TimerSys.unpause_stack
            (TimerSys.sleep
              (TimerSys.pause_stack
                (TimerSys.sleep (ProfileTimer.new op ⟨c0, stk, psd, ctr, n0⟩).2 a)) b))
          cdur
        = ⟨c0, stk ++ [ctr],
            ((stk ++ [ctr]).foldl setInsert psd).filter (fun i => decide (i ∉ stk ++ [ctr])),
            ctr + 1, n0 + a + b + cdur⟩ := by
      simp [ProfileTimer.new, TimerSys.sleep, TimerSys.pause_stack, TimerSys.unpause_stack]
    rw [show (ProfileTimer.new op ⟨c0, stk, psd, ctr, n0⟩).1
        = ⟨op, n0, false, ctr, false⟩ from rfl]
    rw [hpre, drop_of_unpaused _ _ rfl rfl hnp]
    have helapsed : n0 + a + b + cdur - n0 = a + b + cdur := by omega
    simp only [helapsed]
    exact get_stats_single c0 (operationKey op) (a + b + cdur) hkey hd1 hd2
  · -- scenario 3: the fresh id ctr is neither on the old stack nor paused
    have hnp : ctr ∉ stk.foldl setInsert psd := by
      intro hmem
      rcases (mem_foldl_setInsert stk psd ctr).mp hmem with h | h
      · exact absurd (hpl ctr h) (lt_irrefl ctr)
      · exact absurd (hsl ctr h) (lt_irrefl ctr)
    rw [show (ProfileTimer.new op (TimerSys.pause_stack ⟨c0, stk, psd, ctr, n0⟩)).1
        = ⟨op, n0, false, ctr, false⟩ from rfl]
    rw [show TimerSys.sleep
          (ProfileTimer.new op (TimerSys.pause_stack ⟨c0, stk, psd, ctr, n0⟩)).2 a
        = ⟨c0, stk ++ [ctr], stk.foldl setInsert psd, ctr + 1, n0 + a⟩ from by
      simp [ProfileTimer.new, TimerSys.sleep, TimerSys.pause_stack]]
    rw [drop_of_unpaused _ _ rfl rfl hnp]
    have helapsed : n0 + a - n0 = a := by omega
    simp only [helapsed]
    exact (get_stats_single c0 (operationKey op) a hkey ha1 ha2).1

/-- C2 witness: the three scenarios evaluated from a pristine process state
(`TimerSys.init` components) with sleeps of 5, 6 and 7 microseconds. -/
theorem C2_stack_pause_semantics_witness :
    (Collector.get_stats (operationKey ⟨"Outer", "OuterWork"⟩)
      (ProfileTimer.drop (ProfileTimer.new ⟨"Outer", "OuterWork"⟩ ⟨Collector.empty, [], [], 0, 0⟩).1
        (TimerSys.sleep
          (TimerSys.pause_stack
            (TimerSys.sleep
              (ProfileTimer.new ⟨"Outer", "OuterWork"⟩ ⟨Collector.empty, [], [], 0, 0⟩).2 5)) 6)).collector
      = none)
    ∧
    ((Collector.get_stats (operationKey ⟨"Outer", "OuterWork"⟩)
      (ProfileTimer.drop (ProfileTimer.new ⟨"Outer", "OuterWork"⟩ ⟨Collector.empty, [], [], 0, 0⟩).1
        (TimerSys.sleep
          (TimerSys.unpause_stack
            (TimerSys.sleep
              (TimerSys.pause_stack
                (TimerSys.sleep
                  (ProfileTimer.new ⟨"Outer", "OuterWork"⟩ ⟨Collector.empty, [], [], 0, 0⟩).2 5)) 6))
          7)).collector).map OperationStats.count = some 1
     ∧ (Collector.get_stats (operationKey ⟨"Outer", "OuterWork"⟩)
      (ProfileTimer.drop (ProfileTimer.new ⟨"Outer", "OuterWork"⟩ ⟨Collector.empty, [], [], 0, 0⟩).1
        (TimerSys.sleep
          (TimerSys.unpause_stack
            (TimerSys.sleep
              (TimerSys.pause_stack
                (TimerSys.sleep
                  (ProfileTimer.new ⟨"Outer", "OuterWork"⟩ ⟨Collector.empty, [], [], 0, 0⟩).2 5)) 6))
          7)).collector).map OperationStats.total_time_micros = some (5 + 6 + 7))
    ∧
    ((Collector.get_stats (operationKey ⟨"Outer", "OuterWork"⟩)
      (ProfileTimer.drop
        (ProfileTimer.new ⟨"Outer", "OuterWork"⟩
          (TimerSys.pause_stack ⟨Collector.empty, [], [], 0, 0⟩)).1
        (TimerSys.sleep
          (ProfileTimer.new ⟨"Outer", "OuterWork"⟩
            (TimerSys.pause_stack ⟨Collector.empty, [], [], 0, 0⟩)).2 5)).collector).map
      OperationStats.count = some 1) :=
  C2_stack_pause_semantics Collector.empty [] [] 0 0 ⟨"Outer", "OuterWork"⟩ 5 6 7
    (by simp) (by simp) (by simp [Collector.empty, alookup]) (by decide) (by decide)
    (by decide) (by decide)

end QuantumPulse

namespace QuantumPulse

/-- `ProfileTimer::record` on a fresh, unsuppressed timer pushes the elapsed
time into the collector and marks the timer recorded. -/
theorem record_of_unpaused (t : ProfileTimer) (s : TimerSys)
    (hrec : t.recorded = false) (hip : t.individually_paused = false)
    (hnp : t.id ∉ s.pausedTimers) :
    ProfileTimer.record t s =
      ({ t with recorded := true },
       { s with collector :=
          Collector.record (operationKey t.operation) (s.now - t.start_time) s.collector }) := by
  simp [ProfileTimer.record, TimerSys.is_timer_paused, hrec, hip, hnp, ProfileTimer.elapsed]

/-- `ProfileTimer::record` on an already-recorded, unsuppressed timer is a
no-op. -/
theorem record_of_recorded (t : ProfileTimer) (s : TimerSys)
    (hrec : t.recorded = true) (hip : t.individually_paused = false)
    (hnp : t.id ∉ s.pausedTimers) :
    ProfileTimer.record t s = (t, s) := by
  simp [ProfileTimer.record, TimerSys.is_timer_paused, hrec, hip, hnp]

/-- C5: each `ProfileTimer` causes at most one collector record over its
lifetime.  Calling `record()` twice and then dropping the timer yields
`count == 1` for its key (the second `record()` and the drop are no-ops,
because the first call set the `recorded` flag); and `stop()` returns the
elapsed duration while never touching the collector, including at the drop
that `stop` itself performs when it consumes the timer. -/
theorem C5_timer_records_once (t : ProfileTimer) (s : TimerSys)
    (hrec : t.recorded = false) (hip : t.individually_paused = false)
    (hnp : t.id ∉ s.pausedTimers)
    (hkey : alookup s.collector.histograms (operationKey t.operation) = none)
    (h1 : 1 ≤ s.now - t.start_time) (h2 : s.now - t.start_time ≤ histHighBound) :
    ((Collector.get_stats (operationKey t.operation)
      (ProfileTimer.drop
        (ProfileTimer.record (ProfileTimer.record t s).1 (ProfileTimer.record t s).2).1
        (ProfileTimer.record (ProfileTimer.record t s).1 (ProfileTimer.record t s).2).2).collector).map
      OperationStats.count = some 1)
    ∧ (ProfileTimer.stop t s).1 = s.now - t.start_time
    ∧ (ProfileTimer.stop t s).2.collector = s.collector := by
  have hfirst := record_of_unpaused t s hrec hip hnp
  refine ⟨?_, ?_, ?_⟩
  · rw [hfirst]
    rw [record_of_recorded _ _ rfl (by simpa using hip) (by simpa using hnp)]
    rw [drop_of_recorded _ _ rfl]
    exact (get_stats_single s.collector (operationKey t.operation) (s.now - t.start_time)
      hkey h1 h2).1
  · rfl
  · rw [ProfileTimer.stop, drop_of_recorded _ _ rfl]

/-- C5 witness: a timer minted at process start, aged 5 microseconds. -/
theorem C5_timer_records_once_witness :
    ((Collector.get_stats (operationKey ⟨"Cat", "Op"⟩)
      (ProfileTimer.drop
        (ProfileTimer.record
          (ProfileTimer.record ⟨⟨"Cat", "Op"⟩, 0, false, 0, false⟩
            ⟨Collector.empty, [0], [], 1, 5⟩).1
          (ProfileTimer.record ⟨⟨"Cat", "Op"⟩, 0, false, 0, false⟩
            ⟨Collector.empty, [0], [], 1, 5⟩).2).1
        (ProfileTimer.record
          (ProfileTimer.record ⟨⟨"Cat", "Op"⟩, 0, false, 0, false⟩
            ⟨Collector.empty, [0], [], 1, 5⟩).1
          (ProfileTimer.record ⟨⟨"Cat", "Op"⟩, 0, false, 0, false⟩
            ⟨Collector.empty, [0], [], 1, 5⟩).2).2).collector).map
      OperationStats.count = some 1)
    ∧ (ProfileTimer.stop ⟨⟨"Cat", "Op"⟩, 0, false, 0, false⟩
        ⟨Collector.empty, [0], [], 1, 5⟩).1 = 5 - 0
    ∧ (ProfileTimer.stop ⟨⟨"Cat", "Op"⟩, 0, false, 0, false⟩
        ⟨Collector.empty, [0], [], 1, 5⟩).2.collector = Collector.empty :=
  C5_timer_records_once ⟨⟨"Cat", "Op"⟩, 0, false, 0, false⟩ ⟨Collector.empty, [0], [], 1, 5⟩
    rfl rfl (by simp) (by simp [Collector.empty, alookup]) (by decide) (by decide)

/-- C7 counterexample: the claim says that for EVERY timer variant, including
`ProfileTimerAsync`, dropping the unit of work mid-measurement still runs a
destructor that records the elapsed time.  `ProfileTimerAsync` has no `Drop`
implementation and `run` records only after the wrapped future completes, so
dropping the future 100 microseconds into the measurement records nothing:
`get_stats` for the key is still `None`. -/
theorem C7_counterexample :
    Collector.get_stats (operationKey ⟨"Net", "Fetch"⟩)
      (ProfileTimerAsync.futureDrop
        (ProfileTimerAsync.new ⟨"Net", "Fetch"⟩ ⟨Collector.empty, [], [], 0, 0⟩).1
        (TimerSys.sleep
          (ProfileTimerAsync.new ⟨"Net", "Fetch"⟩ ⟨Collector.empty, [], [], 0, 0⟩).2
          100)).collector = none := by
  decide

/-- C7 amended: cancellation mid-measurement is handled by the synchronous
RAII `ProfileTimer` — its destructor still runs and records the elapsed time
accumulated up to the cancellation point — but NOT by `ProfileTimerAsync`:
the async wrapper records only when the wrapped future runs to completion,
and a future dropped before completion records nothing (as its own
documentation states: "If you don't await the result, the profiling will not
happen"). -/
theorem C7_cancellation_amended (t : ProfileTimer) (s : TimerSys)
    (hrec : t.recorded = false) (hip : t.individually_paused = false)
    (hnp : t.id ∉ s.pausedTimers)
    (hkey : alookup s.collector.histograms (operationKey t.operation) = none)
    (h1 : 1 ≤ s.now - t.start_time) (h2 : s.now - t.start_time ≤ histHighBound) :
    ((Collector.get_stats (operationKey t.operation)
        (ProfileTimer.drop t s).collector).map OperationStats.count = some 1
     ∧ (Collector.get_stats (operationKey t.operation)
        (ProfileTimer.drop t s).collector).map OperationStats.total_time_micros
        = some (s.now - t.start_time))
    ∧ (∀ (ta : ProfileTimerAsync) (s2 : TimerSys),
        ProfileTimerAsync.futureDrop ta s2 = s2) := by
  constructor
  · rw [drop_of_unpaused t s hrec hip hnp]
    exact get_stats_single s.collector (operationKey t.operation) (s.now - t.start_time)
      hkey h1 h2
  · intro ta s2
    rfl

/-- C7 amended witness: a synchronous timer cancelled 42 microseconds in. -/
theorem C7_cancellation_amended_witness :
    ((Collector.get_stats (operationKey ⟨"Job", "Step"⟩)
        (ProfileTimer.drop ⟨⟨"Job", "Step"⟩, 0, false, 0, false⟩
          ⟨Collector.empty, [0], [], 1, 42⟩).collector).map OperationStats.count = some 1
     ∧ (Collector.get_stats (operationKey ⟨"Job", "Step"⟩)
        (ProfileTimer.drop ⟨⟨"Job", "Step"⟩, 0, false, 0, false⟩
          ⟨Collector.empty, [0], [], 1, 42⟩).collector).map OperationStats.total_time_micros
        = some (42 - 0))
    ∧ (∀ (ta : ProfileTimerAsync) (s2 : TimerSys),
        ProfileTimerAsync.futureDrop ta s2 = s2) :=
  C7_cancellation_amended ⟨⟨"Job", "Step"⟩, 0, false, 0, false⟩ ⟨Collector.empty, [0], [], 1, 42⟩
    rfl rfl (by simp) (by simp [Collector.empty, alookup]) (by decide) (by decide)

end QuantumPulse

namespace QuantumPulse

/-- C10: a key first seen through plain `ProfileCollector::record` — the path
used by `ProfileTimer`'s recording — is permanently registered with
`DefaultCategory::Other`: `record` delegates to `record_with_category` with
`DefaultCategory::Other`, and because category registration is
first-writer-wins (indeed, a second record for an existing key returns before
touching the metadata table at all), a later `record_with_category` supplying
the intended category leaves the registered category as `Other`.  The third
conjunct shows the timer path: dropping an unsuppressed timer registers its
key with category `Other`. -/
theorem C10_plain_record_registers_other
    (c0 : Collector) (key : String) (d d2 : Nat) (ty v : String)
    (hh : alookup c0.histograms key = none) (hm : alookup c0.metadata key = none)
    (t : ProfileTimer) (s : TimerSys)
    (hrec : t.recorded = false) (hip : t.individually_paused = false)
    (hnp : t.id ∉ s.pausedTimers)
    (hth : alookup s.collector.histograms (operationKey t.operation) = none)
    (htm : alookup s.collector.metadata (operationKey t.operation) = none) :
    Collector.get_category "DefaultCategory" key (Collector.record key d c0) = some "Other"
    ∧ Collector.get_category "DefaultCategory" key
        (Collector.record_with_category key ⟨ty, v⟩ d2 (Collector.record key d c0)) = some "Other"
    ∧ Collector.get_category "DefaultCategory" (operationKey t.operation)
        (ProfileTimer.drop t s).collector = some "Other" := by
  have hmeta1 : (Collector.record key d c0).metadata
      = (key, ⟨"DefaultCategory", "Other"⟩) :: c0.metadata := by
    rw [Collector.record]
    exact record_with_category_metadata_absent key ⟨"DefaultCategory", "Other"⟩ d c0 hh hm
  have hcat1 : Collector.get_category "DefaultCategory" key (Collector.record key d c0)
      = some "Other" := by
    simp [Collector.get_category, hmeta1, alookup]
  refine ⟨hcat1, ?_, ?_⟩
  · have hpresent : alookup (Collector.record key d c0).histograms key
        = some (histRecord ((alookup c0.histograms key).getD []) d) := by
      rw [Collector.record]
      exact record_with_category_lookup_self key ⟨"DefaultCategory", "Other"⟩ d c0
    have hmeta2 := record_with_category_metadata_present key ⟨ty, v⟩ d2
      (Collector.record key d c0) _ hpresent
    simp [Collector.get_category, hmeta2, hmeta1, alookup]
  · rw [drop_of_unpaused t s hrec hip hnp]
    have hmeta3 : (Collector.record (operationKey t.operation) (s.now - t.start_time)
        s.collector).metadata
        = (operationKey t.operation, ⟨"DefaultCategory", "Other"⟩) :: s.collector.metadata := by
      rw [Collector.record]
      exact record_with_category_metadata_absent _ _ _ _ hth htm
    simp [Collector.get_category, hmeta3, alookup]

/-- C10 witness: a fresh key recorded via plain `record`, then a
`record_with_category` with a custom category, plus a freshly minted timer. -/
theorem C10_plain_record_registers_other_witness :
    Collector.get_category "DefaultCategory" "k10" (Collector.record "k10" 3 Collector.empty)
      = some "Other"
    ∧ Collector.get_category "DefaultCategory" "k10"
        (Collector.record_with_category "k10" ⟨"MyCategory", "Database"⟩ 4
          (Collector.record "k10" 3 Collector.empty)) = some "Other"
    ∧ Collector.get_category "DefaultCategory" (operationKey ⟨"Cat10", "Op10"⟩)
        (ProfileTimer.drop ⟨⟨"Cat10", "Op10"⟩, 0, false, 0, false⟩
          ⟨Collector.empty, [0], [], 1, 9⟩).collector = some "Other" :=
  C10_plain_record_registers_other Collector.empty "k10" 3 4 "MyCategory" "Database"
    (by simp [Collector.empty, alookup]) (by simp [Collector.empty, alookup])
    ⟨⟨"Cat10", "Op10"⟩, 0, false, 0, false⟩ ⟨Collector.empty, [0], [], 1, 9⟩
    rfl rfl (by simp) (by simp [Collector.empty, alookup]) (by simp [Collector.empty, alookup])

/-- C4: category registration is first-writer-wins and does not block
measurement accumulation: after `record_with_category(k, CatA, d1)` followed
by `record_with_category(k, CatB, d2)` with a different category value of the
same category type, `get_category(k)` is still `CatA` (the second category
argument is ignored — the second call returns before touching the metadata
table) and `get_stats(k).count == 2` (both in-range durations were
accumulated). -/
theorem C4_first_writer_wins
    (c0 : Collector) (key ty A B : String) (d1 d2 : Nat)
    (hh : alookup c0.histograms key = none) (hm : alookup c0.metadata key = none)
    (_hAB : A ≠ B) (hd1 : d1 ≤ histHighBound) (hd2 : d2 ≤ histHighBound) :
    Collector.get_category ty key
      (Collector.record_with_category key ⟨ty, B⟩ d2
        (Collector.record_with_category key ⟨ty, A⟩ d1 c0)) = some A
    ∧ (Collector.get_stats key
      (Collector.record_with_category key ⟨ty, B⟩ d2
        (Collector.record_with_category key ⟨ty, A⟩ d1 c0))).map OperationStats.count
      = some 2 := by
  have hmax1 : max d1 1 ≤ histHighBound := by
    rcases max_cases d1 1 with ⟨he, _⟩ | ⟨he, _⟩ <;> rw [he]
    · exact hd1
    · rw [histHighBound]
      omega
  have hmax2 : max d2 1 ≤ histHighBound := by
    rcases max_cases d2 1 with ⟨he, _⟩ | ⟨he, _⟩ <;> rw [he]
    · exact hd2
    · rw [histHighBound]
      omega
  have hl1 : alookup (Collector.record_with_category key ⟨ty, A⟩ d1 c0).histograms key
      = some [max d1 1] := by
    rw [record_with_category_lookup_self, hh]
    simp [histRecord, hmax1]
  have hmeta1 : (Collector.record_with_category key ⟨ty, A⟩ d1 c0).metadata
      = (key, ⟨ty, A⟩) :: c0.metadata :=
    record_with_category_metadata_absent key ⟨ty, A⟩ d1 c0 hh hm
  have hl2 : alookup (Collector.record_with_category key ⟨ty, B⟩ d2
      (Collector.record_with_category key ⟨ty, A⟩ d1 c0)).histograms key
      = some [max d2 1, max d1 1] := by
    rw [record_with_category_lookup_self, hl1]
    simp [histRecord, hmax2]
  have hmeta2 := record_with_category_metadata_present key ⟨ty, B⟩ d2
    (Collector.record_with_category key ⟨ty, A⟩ d1 c0) _ hl1
  constructor
  · simp [Collector.get_category, hmeta2, hmeta1, alookup]
  · simp [Collector.get_stats, hl2, getStats]

/-- C4 witness: the spec's own example, `CatA = IO`, `CatB = Compute`, both of
category type `DefaultCategory`. -/
theorem C4_first_writer_wins_witness :
    Collector.get_category "DefaultCategory" "k4"
      (Collector.record_with_category "k4" ⟨"DefaultCategory", "Compute"⟩ 200
        (Collector.record_with_category "k4" ⟨"DefaultCategory", "IO"⟩ 100 Collector.empty))
      = some "IO"
    ∧ (Collector.get_stats "k4"
      (Collector.record_with_category "k4" ⟨"DefaultCategory", "Compute"⟩ 200
        (Collector.record_with_category "k4" ⟨"DefaultCategory", "IO"⟩ 100
          Collector.empty))).map OperationStats.count = some 2 :=
  C4_first_writer_wins Collector.empty "k4" "DefaultCategory" "IO" "Compute" 100 200
    (by simp [Collector.empty, alookup]) (by simp [Collector.empty, alookup])
    (by decide) (by decide) (by decide)

end QuantumPulse

namespace QuantumPulse

/-- C3 amended: for a nonempty sequence of durations that the histogram
accepts unchanged — each `di` with `1 ≤ di ≤ 10_000_000`, so the
`max(value, 1)` clamp is the identity and nothing is rejected —
`get_stats(k)` after recording `d1..dn` on a fresh key `k` reports
`count == n`, `total == d1 + ... + dn`, `min == min(di)` and `max == max(di)`
(the folds below are the mathematical min/max of the `di`, since the list is
nonempty and every element is below the fold seeds).  Recording a zero
duration stores 1 instead (see the counterexample), and a duration above
10_000_000 microseconds is silently dropped by the histogram, so the claim's
"including zero and arbitrarily large durations" fails; within the accepted
range the source computes `total` as `mean * count`, which equals the sum in
exact arithmetic. -/
theorem C3_stats_amended (c0 : Collector) (key : String) (ds : List Nat)
    (hkey : alookup c0.histograms key = none)
    (hne : ds ≠ [])
    (hr : ∀ d ∈ ds, 1 ≤ d ∧ d ≤ histHighBound) :
    ∃ st, Collector.get_stats key (Collector.recordSeq key ds c0) = some st
      ∧ st.count = ds.length
      ∧ st.total_time_micros = ds.sum
      ∧ st.min_time_micros = ds.foldr min u64MAX
      ∧ st.max_time_micros = ds.foldr max 0 := by
  obtain ⟨d, ds', rfl⟩ := List.exists_cons_of_ne_nil hne
  have hd := hr d (by simp)
  have hstep : alookup (Collector.record key d c0).histograms key = some [d] := by
    rw [Collector.record, record_with_category_lookup_self, hkey]
    have hmax : max d 1 = d := max_eq_left hd.1
    simp [histRecord, hmax, hd.2]
  have hfinal : alookup (Collector.recordSeq key (d :: ds') c0).histograms key
      = some (ds'.reverse ++ [d]) := by
    have := recordSeq_lookup key ds' (Collector.record key d c0) [d] hstep
      (fun x hx => hr x (by simp [hx]))
    simpa [Collector.recordSeq, List.foldl_cons] using this
  have hrev : ds'.reverse ++ [d] = (d :: ds').reverse := (List.reverse_cons d ds').symm
  refine ⟨getStats ((d :: ds').reverse), ?_, ?_, ?_, ?_, ?_⟩
  · rw [Collector.get_stats, hfinal, hrev]
    rfl
  · have hemp : ((d :: ds').reverse).isEmpty = false := by
      simp
    simp [getStats, hemp]
  · have hemp : ((d :: ds').reverse).isEmpty = false := by
      simp
    simp [getStats, hemp, List.sum_reverse, Nat.add_comm]
  · have hemp : ((d :: ds').reverse).isEmpty = false := by
      simp
    simp only [getStats, hemp, Bool.false_eq_true, if_false]
    exact foldr_min_reverse (d :: ds') u64MAX
  · have hemp : ((d :: ds').reverse).isEmpty = false := by
      simp
    simp only [getStats, hemp, Bool.false_eq_true, if_false]
    exact foldr_max_reverse (d :: ds') 0

/-- C3 amended witness: recording 100, 300, 200 on a fresh key. -/
theorem C3_stats_amended_witness :
    ∃ st, Collector.get_stats "k3" (Collector.recordSeq "k3" [100, 300, 200] Collector.empty)
        = some st
      ∧ st.count = [100, 300, 200].length
      ∧ st.total_time_micros = [100, 300, 200].sum
      ∧ st.min_time_micros = [100, 300, 200].foldr min u64MAX
      ∧ st.max_time_micros = [100, 300, 200].foldr max 0 :=
  C3_stats_amended Collector.empty "k3" [100, 300, 200]
    (by simp [Collector.empty, alookup]) (by decide) (by decide)

/-- C9 amended: `reset_operation(key)` zeroes just that one key's accumulator
IN PLACE — the entry survives, so `get_stats(key)` afterwards is `Some` empty
statistics rather than `None` — while leaving every other key's statistics
and all category registrations untouched; `reset_all` zeroes every
accumulator in place, likewise keeping every key registered (with zeroed
counters) and every category registration intact.  The two operations differ
in scope (one key versus all), not in whether entries are removed: neither
removes anything. -/
theorem C9_reset_amended (c : Collector) (k : String) (vs : List Nat)
    (h : alookup c.histograms k = some vs) :
    Collector.get_stats k (Collector.reset_operation k c) = some OperationStats.default
    ∧ (∀ k2, k2 ≠ k →
        Collector.get_stats k2 (Collector.reset_operation k c) = Collector.get_stats k2 c)
    ∧ (Collector.reset_operation k c).metadata = c.metadata
    ∧ (∀ k3 vs3, alookup c.histograms k3 = some vs3 →
        Collector.get_stats k3 (Collector.reset_all c) = some OperationStats.default)
    ∧ (Collector.reset_all c).metadata = c.metadata := by
  refine ⟨?_, ?_, ?_, ?_, ?_⟩
  · rw [Collector.get_stats, Collector.reset_operation, h]
    rw [alookup_aupdate_self c.histograms k _ vs h]
    simp [getStats, OperationStats.default]
  · intro k2 hk2
    rw [Collector.reset_operation, h]
    rw [Collector.get_stats, Collector.get_stats]
    rw [alookup_aupdate_ne c.histograms k k2 _ hk2]
  · rw [Collector.reset_operation, h]
  · intro k3 vs3 h3
    rw [Collector.get_stats, Collector.reset_all]
    have := alookup_map_empty c.histograms k3
    simp only at this
    rw [this, h3]
    simp [getStats, OperationStats.default]
  · rfl

/-- C9 amended witness: two keys recorded, the first reset. -/
theorem C9_reset_amended_witness :
    Collector.get_stats "a9"
      (Collector.reset_operation "a9"
        (Collector.record "b9" 2 (Collector.record "a9" 1 Collector.empty)))
      = some OperationStats.default
    ∧ Collector.get_stats "b9"
      (Collector.reset_operation "a9"
        (Collector.record "b9" 2 (Collector.record "a9" 1 Collector.empty)))
      = Collector.get_stats "b9"
        (Collector.record "b9" 2 (Collector.record "a9" 1 Collector.empty))
    ∧ (Collector.reset_operation "a9"
        (Collector.record "b9" 2 (Collector.record "a9" 1 Collector.empty))).metadata
      = (Collector.record "b9" 2 (Collector.record "a9" 1 Collector.empty)).metadata
    ∧ Collector.get_stats "b9"
      (Collector.reset_all
        (Collector.record "b9" 2 (Collector.record "a9" 1 Collector.empty)))
      = some OperationStats.default := by
  have h := C9_reset_amended
    (Collector.record "b9" 2 (Collector.record "a9" 1 Collector.empty)) "a9" [1]
    (by decide)
  exact ⟨h.1, h.2.1 "b9" (by decide), h.2.2.1, h.2.2.2.1 "b9" [2] (by decide)⟩

end QuantumPulse

namespace QuantumPulse

/-- C6 amended: when `count == 0` the statistics returned to the caller are
`OperationStats::default()` — mean zero, every percentile zero, max zero —
except that `min` is the `u64::MAX` sentinel, not zero (see the
counterexample); the percentile path is never entered on an empty accumulator
(`get_stats` short-circuits on `len() == 0`), so percentile queries return the
defined value 0 with no division by zero or panic.  Once `count >= 1` the
returned statistics satisfy `min <= mean <= max`. -/
theorem C6_empty_stats_amended :
    (getStats [] = OperationStats.default
     ∧ OperationStats.default.count = 0
     ∧ OperationStats.default.mean_time_micros = 0
     ∧ OperationStats.default.p50_micros = 0
     ∧ OperationStats.default.p95_micros = 0
     ∧ OperationStats.default.p99_micros = 0
     ∧ OperationStats.default.p999_micros = 0
     ∧ OperationStats.default.max_time_micros = 0
     ∧ OperationStats.default.min_time_micros = u64MAX)
    ∧ ∀ vs : List Nat, vs ≠ [] →
        ((getStats vs).min_time_micros : ℚ) ≤ (getStats vs).mean_time_micros
        ∧ (getStats vs).mean_time_micros ≤ ((getStats vs).max_time_micros : ℚ) := by
  refine ⟨⟨rfl, rfl, rfl, rfl, rfl, rfl, rfl, rfl, rfl⟩, ?_⟩
  intro vs hvs
  have hemp : vs.isEmpty = false := by
    cases vs with
    | nil => exact absurd rfl hvs
    | cons x l => rfl
  have hlen : 0 < vs.length := List.length_pos.mpr hvs
  have hlenQ : (0 : ℚ) < (vs.length : ℚ) := by exact_mod_cast hlen
  constructor
  · simp only [getStats, hemp, Bool.false_eq_true, if_false]
    rw [le_div_iff₀ hlenQ]
    have hnat : vs.foldr min u64MAX * vs.length ≤ vs.sum := by
      rw [Nat.mul_comm]
      exact length_mul_foldr_min_le_sum vs u64MAX
    exact_mod_cast hnat
  · simp only [getStats, hemp, Bool.false_eq_true, if_false]
    rw [div_le_iff₀ hlenQ]
    have hnat : vs.sum ≤ vs.foldr max 0 * vs.length := by
      rw [Nat.mul_comm]
      exact sum_le_length_mul_foldr_max vs 0
    exact_mod_cast hnat

/-- C6 amended witness: the singleton accumulator `[5]` has
`min <= mean`. -/
theorem C6_empty_stats_amended_witness :
    [5] ≠ ([] : List Nat)
    ∧ ((getStats [5]).min_time_micros : ℚ) ≤ (getStats [5]).mean_time_micros :=
  ⟨by decide, (C6_empty_stats_amended.2 [5] (by decide)).1⟩

end QuantumPulse

namespace QuantumPulse

/-- C8 counterexample: the claim says two identities of the same variant with
different payloads map to the SAME key and fold into the same accumulator.
The derive macro generates only `get_category`; `to_str` falls back to the
`Operation` trait default `format!("{:?}", self)`, which prints the payload,
so `Query("SELECT 1")` and `Query("SELECT 2")` produce different keys and two
separate accumulators of count 1 each instead of one of count 2. -/
theorem C8_counterexample :
    DbOp.timerKey (DbOp.Query "SELECT 1") ≠ DbOp.timerKey (DbOp.Query "SELECT 2")
    ∧ (Collector.get_stats (DbOp.timerKey (DbOp.Query "SELECT 1"))
        (Collector.record (DbOp.timerKey (DbOp.Query "SELECT 2")) 20
          (Collector.record (DbOp.timerKey (DbOp.Query "SELECT 1")) 10
            Collector.empty))).map OperationStats.count = some 1
    ∧ (Collector.get_stats (DbOp.timerKey (DbOp.Query "SELECT 2"))
        (Collector.record (DbOp.timerKey (DbOp.Query "SELECT 2")) 20
          (Collector.record (DbOp.timerKey (DbOp.Query "SELECT 1")) 10
            Collector.empty))).map OperationStats.count = some 1 := by
  refine ⟨by decide, by decide, by decide⟩

/-- C8 amended: the operation key is derived from the full `Debug`
representation of the operation identity, payload included — NOT from the
variant discriminant alone.  Two `Query` identities map to the same key
exactly when their payloads are equal, so distinct payloads fragment
aggregation into distinct accumulators (and identical payloads still fold
together). -/
theorem C8_key_includes_payload (s1 s2 : String) :
    DbOp.timerKey (DbOp.Query s1) = DbOp.timerKey (DbOp.Query s2) ↔ s1 = s2 := by
  constructor
  · intro h
    have hd := congrArg String.data h
    simp only [DbOp.timerKey, DbOp.categoryName, DbOp.to_str, DbOp.debugFmt,
      String.data_append] at hd
    simp only [List.append_assoc] at hd
    rw [List.append_right_inj, List.append_right_inj, List.append_right_inj,
      List.append_right_inj] at hd
    exact String.ext ((List.append_left_inj _).mp hd)
  · intro h
    rw [h]

end QuantumPulse
